import Mathlib

/-!
Verification of the Xiaomi fingerprint AIDL HAL shim
(src/aidl/biometrics/fingerprint/Fingerprint.cpp, Fingerprint.h).

The C++ code is shallowly embedded as pure Lean functions.  Interaction with
the outside world (the vendor hardware module loader, the opened device, the
UDFPS handler factory and the Android system properties) is modelled by an
explicit environment record passed to each function; the functions themselves
follow the source control flow line by line.
-/

namespace XiaomiFp

/-- `FingerprintSensorType` from the AIDL interface
(values used by the code: UNKNOWN, UNDER_DISPLAY_OPTICAL,
UNDER_DISPLAY_ULTRASONIC; the remaining AIDL values are included for
completeness). -/
inductive FingerprintSensorType where
  | UNKNOWN
  | REAR
  | UNDER_DISPLAY_ULTRASONIC
  | UNDER_DISPLAY_OPTICAL
  | POWER_BUTTON
  | HOME_BUTTON
  deriving DecidableEq, Repr

/-- `common::SensorStrength` from the AIDL interface. -/
inductive SensorStrength where
  | CONVENIENCE
  | WEAK
  | STRONG
  deriving DecidableEq, Repr

/-- `HARDWARE_MODULE_API_VERSION(maj, min)` from hardware.h:
`((maj & 0xff) << 8) | (min & 0xff)` on 16-bit values. -/
def HARDWARE_MODULE_API_VERSION (maj minv : Nat) : Nat :=
  (maj % 256) * 256 + (minv % 256)

/-- `static const uint16_t kVersion = HARDWARE_MODULE_API_VERSION(2, 1);`
(Fingerprint.cpp line 48). -/
def kVersion : Nat := HARDWARE_MODULE_API_VERSION 2 1

/-- An opened `hw_device_t` / `fingerprint_device_t`.  `addr` is the identity
of the device pointer; `version` is the `uint16` field `device->version`. -/
structure Device where
  addr : Nat
  version : Nat
  deriving DecidableEq, Repr

/-- The callback function pointers that the shim can pass to
`set_notify`.  The source only ever passes `Fingerprint::notify`. -/
inductive HalCallback where
  | fingerprintNotify
  deriving DecidableEq, Repr

/-- Environment of `openHal`: responses of the vendor hardware module
loader and of the opened device, keyed by the `(id_name, class_name)` pair
the code passes down.  Each field corresponds to one external call made in
`Fingerprint::openHal` (Fingerprint.cpp lines 108-149). -/
structure HalEnv where
  /-- return value of `hw_get_module_by_class(id_name, class_name, &hw_mdl)` -/
  hwGetModuleErr : String → Option String → Int
  /-- whether the `hw_mdl` written by a successful
  `hw_get_module_by_class` is the null pointer -/
  hwModuleNull : String → Option String → Bool
  /-- whether `module->common.methods->open` is non-null -/
  hasOpenMethod : String → Option String → Bool
  /-- return value of `module->common.methods->open(hw_mdl, nullptr, &device)` -/
  openErr : String → Option String → Int
  /-- the device written by a successful `open` -/
  openedDevice : String → Option String → Device
  /-- return value of `fp_device->set_notify(fp_device, callback)` -/
  setNotifyErr : Device → HalCallback → Int

/-- `Fingerprint::openHal` (Fingerprint.cpp lines 108-149).  Returns the
device the C++ function returns (`none` = `nullptr`) together with the list
of `set_notify` registrations performed during the call. -/
def openHal (env : HalEnv) (id_name : String) (class_name : Option String) :
    Option Device × List (Device × HalCallback) :=
  if env.hwGetModuleErr id_name class_name ≠ 0 then
    (none, [])
  else if env.hwModuleNull id_name class_name then
    (none, [])
  else if ¬ env.hasOpenMethod id_name class_name then
    (none, [])
  else if env.openErr id_name class_name ≠ 0 then
    (none, [])
  else
    let device := env.openedDevice id_name class_name
    if kVersion ≠ device.version then
      (none, [])
    else if env.setNotifyErr device HalCallback.fingerprintNotify ≠ 0 then
      (none, [(device, HalCallback.fingerprintNotify)])
    else
      (some device, [(device, HalCallback.fingerprintNotify)])

/-- A `HalEnv` on which every step of `openHal` succeeds, used to exercise
the theorems on a concrete run. -/
def halEnvGood : HalEnv where
  hwGetModuleErr := fun _ _ => 0
  hwModuleNull := fun _ _ => false
  hasOpenMethod := fun _ _ => true
  openErr := fun _ _ => 0
  openedDevice := fun _ _ => ⟨0, kVersion⟩
  setNotifyErr := fun _ _ => 0

/-- C1: openHal validates the opened device's version: it returns a device
only if `device->version` equals `HARDWARE_MODULE_API_VERSION(2, 1)`
(`kVersion`); for every opened device whose version differs from `kVersion`,
openHal returns nullptr. -/
theorem openHal_validates_version (env : HalEnv) (i : String) (c : Option String) :
    (∀ d : Device, (openHal env i c).1 = some d → d.version = kVersion) ∧
    ((env.openedDevice i c).version ≠ kVersion → (openHal env i c).1 = none) := by
  constructor
  · intro d hd
    unfold openHal at hd
    repeat' split at hd
    all_goals simp_all
    all_goals repeat' split at hd
    all_goals simp_all
  · intro hv
    unfold openHal
    repeat' split
    all_goals simp_all
    all_goals repeat' split
    all_goals simp_all

/-- Witness for C1: on a concrete fully successful environment, openHal
returns a device and that device's version is `kVersion`; and on an
environment whose opened device has a different version, openHal returns
nullptr. -/
theorem openHal_validates_version_witness :
    (Device.mk 0 kVersion).version = kVersion ∧
    (openHal { halEnvGood with openedDevice := fun _ _ => ⟨0, 7⟩ }
        "fingerprint" none).1 = none :=
  ⟨(openHal_validates_version halEnvGood "fingerprint" none).1
      (Device.mk 0 kVersion) (by decide),
   (openHal_validates_version { halEnvGood with openedDevice := fun _ _ => ⟨0, 7⟩ }
      "fingerprint" none).2 (by decide)⟩

/-- C2: openHal registers the static `Fingerprint::notify` callback on the
device via `set_notify` before returning it: every non-null result of openHal
has had `set_notify` succeed with `Fingerprint::notify`, and if `set_notify`
returns a non-zero error, openHal returns nullptr. -/
theorem openHal_registers_notify (env : HalEnv) (i : String) (c : Option String) :
    (∀ d : Device, (openHal env i c).1 = some d →
        env.setNotifyErr d HalCallback.fingerprintNotify = 0 ∧
        (d, HalCallback.fingerprintNotify) ∈ (openHal env i c).2) ∧
    (env.setNotifyErr (env.openedDevice i c) HalCallback.fingerprintNotify ≠ 0 →
        (openHal env i c).1 = none) := by
  constructor
  · intro d hd
    unfold openHal at hd ⊢
    repeat' split at hd
    all_goals simp_all
    all_goals repeat' split at hd
    all_goals simp_all
  · intro hn
    unfold openHal
    repeat' split
    all_goals simp_all
    all_goals repeat' split
    all_goals simp_all

/-- Witness for C2: on a concrete fully successful environment, the returned
device has been registered with `Fingerprint::notify` and `set_notify`
succeeded on it; on an environment whose `set_notify` fails, openHal returns
nullptr. -/
theorem openHal_registers_notify_witness :
    (halEnvGood.setNotifyErr (Device.mk 0 kVersion) HalCallback.fingerprintNotify = 0 ∧
      (Device.mk 0 kVersion, HalCallback.fingerprintNotify) ∈
        (openHal halEnvGood "fingerprint" none).2) ∧
    (openHal { halEnvGood with setNotifyErr := fun _ _ => 13 } "fingerprint" none).1 = none :=
  ⟨(openHal_registers_notify halEnvGood "fingerprint" none).1
      (Device.mk 0 kVersion) (by decide),
   (openHal_registers_notify { halEnvGood with setNotifyErr := fun _ _ => 13 }
      "fingerprint" none).2 (by decide)⟩

/-- One entry of `kModules` (the anonymous-namespace `fingerprint_hal_t`,
Fingerprint.cpp lines 15-19). -/
structure FingerprintHalEntry where
  id_name : String
  class_name : Option String
  sensor_type : FingerprintSensorType
  deriving DecidableEq, Repr

/-- `kModules` (Fingerprint.cpp lines 21-24): the two module names tried by
the constructor, both with a NULL class name and an under-display optical
sensor type. -/
def kModules : List FingerprintHalEntry :=
  [⟨"fingerprint.goodix_fod", none, FingerprintSensorType.UNDER_DISPLAY_OPTICAL⟩,
   ⟨"fingerprint", none, FingerprintSensorType.UNDER_DISPLAY_OPTICAL⟩]

/-- A session object as constructed by `Fingerprint::createSession`.

Modelled from the spec: the `Session` class itself (Session.h / Session.cpp)
is not part of the given sources; per the spec it is "an authenticated
per-user session" the shim delegates to.  Only what `Fingerprint.cpp`
observes is modelled: the five constructor arguments it is bound to
(device, UDFPS handler, user id, callback, lockout tracker) and the
`isClosed()` observation; a freshly constructed session is open. -/
structure Session where
  device : Option Device
  udfpsHandler : Option Nat
  userId : Int
  cb : Nat
  lockoutTracker : Nat
  closed : Bool
  deriving DecidableEq, Repr

/-- `Session::isClosed()` as observed by `Fingerprint.cpp`. -/
def Session.isClosed (s : Session) : Bool := s.closed

/-- The fields of the `Fingerprint` object (Fingerprint.h lines 41-55).
`mSession` is the single shared session pointer; pointers are modelled as
`Option`, the UDFPS handler and factory and the lockout tracker as opaque
identities. -/
structure FingerprintState where
  mSession : Option Session
  mLockoutTracker : Nat
  mSensorType : FingerprintSensorType
  mMaxEnrollmentsPerUser : Int
  mSupportsGestures : Bool
  mDevice : Option Device
  mUdfpsHandlerFactory : Option Nat
  mUdfpsHandler : Option Nat
  deriving DecidableEq, Repr

/-- Environment for the UDFPS handler part of the constructor:
`getUdfpsHandlerFactory()` (may return null) and `factory->create()`
(may return null). -/
structure UdfpsEnv where
  factory : Option Nat
  create : Nat → Option Nat

/-- The constructor loop over `kModules` (Fingerprint.cpp lines 59-69):
assigns `mDevice = openHal(...)` for each entry in order, stopping at the
first non-null device and taking that entry's sensor type; yields
`(none, none)` if every entry fails (`mSensorType` then stays untouched). -/
def loadModules (env : HalEnv) :
    List FingerprintHalEntry → Option Device × Option FingerprintSensorType
  | [] => (none, none)
  | m :: rest =>
    match (openHal env m.id_name m.class_name).1 with
    | none => loadModules env rest
    | some d => (some d, some m.sensor_type)

def MAX_ENROLLMENTS_PER_USER : Int := 7

/-- `Fingerprint::Fingerprint()` (Fingerprint.cpp lines 51-89): member
initializers, the module loop, and the UDFPS handler setup.  `tracker` is
the identity of the default-constructed `mLockoutTracker`.  The function
also returns the new value of the global `sInstance` (set to this object at
line 58, before the loop runs; the state recorded there is the state at the
end of construction since `sInstance` aliases the object). -/
def mkFingerprint (env : HalEnv) (uenv : UdfpsEnv) (tracker : Nat) : FingerprintState :=
  let initState : FingerprintState :=
    { mSession := none
      mLockoutTracker := tracker
      mSensorType := FingerprintSensorType.UNKNOWN
      mMaxEnrollmentsPerUser := MAX_ENROLLMENTS_PER_USER
      mSupportsGestures := false
      mDevice := none
      mUdfpsHandlerFactory := none
      mUdfpsHandler := none }
  let loaded := loadModules env kModules
  let s1 := { initState with
              mDevice := loaded.1
              mSensorType := loaded.2.getD FingerprintSensorType.UNKNOWN }
  if s1.mSensorType = FingerprintSensorType.UNDER_DISPLAY_OPTICAL ∨
     s1.mSensorType = FingerprintSensorType.UNDER_DISPLAY_ULTRASONIC then
    match uenv.factory with
    | none => s1
    | some f =>
      { s1 with mUdfpsHandlerFactory := some f, mUdfpsHandler := uenv.create f }
  else s1

/-- Computation of the constructor loop on the concrete module table. -/
theorem loadModules_kModules (env : HalEnv) :
    loadModules env kModules =
      match (openHal env "fingerprint.goodix_fod" none).1 with
      | some d => (some d, some FingerprintSensorType.UNDER_DISPLAY_OPTICAL)
      | none =>
        match (openHal env "fingerprint" none).1 with
        | some d => (some d, some FingerprintSensorType.UNDER_DISPLAY_OPTICAL)
        | none => (none, none) := by
  rcases h1 : (openHal env "fingerprint.goodix_fod" none).1 with _ | d1 <;>
    rcases h2 : (openHal env "fingerprint" none).1 with _ | d2 <;>
    simp [loadModules, kModules, h1, h2]

/-- C3: the constructor tries the entries of `kModules` in order
("fingerprint.goodix_fod" then "fingerprint"), sets `mDevice` to the first
device that openHal returns non-null and `mSensorType` to that entry's
sensor type, stopping there; if every entry fails, `mDevice` remains nullptr
and `mSensorType` remains UNKNOWN. -/
theorem constructor_tries_modules_in_order (env : HalEnv) (uenv : UdfpsEnv) (tracker : Nat) :
    ((mkFingerprint env uenv tracker).mDevice,
     (mkFingerprint env uenv tracker).mSensorType) =
      match (openHal env "fingerprint.goodix_fod" none).1 with
      | some d => (some d, FingerprintSensorType.UNDER_DISPLAY_OPTICAL)
      | none =>
        match (openHal env "fingerprint" none).1 with
        | some d => (some d, FingerprintSensorType.UNDER_DISPLAY_OPTICAL)
        | none => (none, FingerprintSensorType.UNKNOWN) := by
  have hlm := loadModules_kModules env
  rcases h1 : (openHal env "fingerprint.goodix_fod" none).1 with _ | d1 <;>
    rcases h2 : (openHal env "fingerprint" none).1 with _ | d2 <;>
    simp only [h1, h2] at hlm <;>
    cases hf : uenv.factory <;>
    simp [mkFingerprint, hlm, hf, h1, h2]

/-- `common::ComponentInfo` from the AIDL interface. -/
structure ComponentInfo where
  componentId : String
  hardwareVersion : String
  firmwareVersion : String
  serialNumber : String
  softwareVersion : String
  deriving DecidableEq, Repr

/-- `common::CommonProps` from the AIDL interface. -/
structure CommonProps where
  sensorId : Int
  sensorStrength : SensorStrength
  maxEnrollmentsPerUser : Int
  componentInfo : List ComponentInfo
  deriving DecidableEq, Repr

/-- `SensorLocation` from the AIDL interface; a default-constructed value
has zero coordinates, zero radius and an empty display id. -/
structure SensorLocation where
  sensorLocationX : Int := 0
  sensorLocationY : Int := 0
  sensorRadius : Int := 0
  display : String := ""
  deriving DecidableEq, Repr

/-- `SensorProps` from the AIDL interface (the fields filled by the
brace-initializer at Fingerprint.cpp lines 183-190; the last, nullable field
is modelled as an `Option`). -/
structure SensorProps where
  commonProps : CommonProps
  sensorType : FingerprintSensorType
  sensorLocations : List SensorLocation
  supportsNavigationGestures : Bool
  supportsDetectInteraction : Bool
  halHandlesDisplayTouches : Bool
  halControlsIllumination : Bool
  touchDetectionParameters : Option Nat
  deriving DecidableEq, Repr

/-- `ndk::ScopedAStatus` as produced by the two remote operations. -/
inductive ScopedAStatus where
  | ok
  | err (code : Int)
  deriving DecidableEq, Repr

def SENSOR_ID : Int := 0
def SENSOR_STRENGTH : SensorStrength := SensorStrength.STRONG
def SUPPORTS_NAVIGATION_GESTURES : Bool := false
def HW_COMPONENT_ID : String := "fingerprintSensor"
def HW_VERSION : String := "vendor/model/revision"
def FW_VERSION : String := "1.01"
def SERIAL_NUMBER : String := "00000001"
def SW_COMPONENT_ID : String := "matchingAlgorithm"
def SW_VERSION : String := "vendor/version/revision"

/-- The Android system-property store: `none` means the key is unset (or its
value does not parse as a number), in which case `property_get_int32`
returns its default argument. -/
def PropStore : Type := String → Option Int

/-- `property_get_int32(key, default_value)` from libcutils. -/
def property_get_int32 (props : PropStore) (key : String) (default_value : Int) : Int :=
  (props key).getD default_value

/-- `Fingerprint::getSensorProps` (Fingerprint.cpp lines 160-193).  Returns
the (unchanged) object state, the vector written through `*out`, and the
returned status. -/
def getSensorProps (props : PropStore) (s : FingerprintState) :
    FingerprintState × List SensorProps × ScopedAStatus :=
  let componentInfo : List ComponentInfo :=
    [⟨HW_COMPONENT_ID, HW_VERSION, FW_VERSION, SERIAL_NUMBER, ""⟩,
     ⟨SW_COMPONENT_ID, "", "", "", SW_VERSION⟩]
  let commonProps : CommonProps :=
    ⟨SENSOR_ID, SENSOR_STRENGTH, s.mMaxEnrollmentsPerUser, componentInfo⟩
  let x := property_get_int32 props
    "ro.vendor.feature.fingerprint_sensorui_position_center_x" (-1)
  let y := property_get_int32 props
    "ro.vendor.feature.fingerprint_sensorui_position_center_y" (-1)
  let r := property_get_int32 props
    "ro.vendor.feature.fingerprint_sensorui_position_center_r" (-1)
  let sensorLocation : SensorLocation :=
    if x ≥ 0 ∧ y ≥ 0 ∧ r ≥ 0 then
      { sensorLocationX := x, sensorLocationY := y, sensorRadius := r }
    else
      {}
  (s,
   [{ commonProps := commonProps
      sensorType := s.mSensorType
      sensorLocations := [sensorLocation]
      supportsNavigationGestures := s.mSupportsGestures
      supportsDetectInteraction := false
      halHandlesDisplayTouches := false
      halControlsIllumination := false
      touchDetectionParameters := none }],
   ScopedAStatus.ok)

/-- C4: on any instance produced by the constructor (so
`mMaxEnrollmentsPerUser = 7` and `mSupportsGestures = false`),
getSensorProps writes a vector of exactly one `SensorProps` whose common
properties are sensor id 0, strength STRONG, maxEnrollmentsPerUser 7, and
the two-entry component-info list (hardware component "fingerprintSensor",
software component "matchingAlgorithm"), with the instance's sensor type and
navigation gestures unsupported. -/
theorem getSensorProps_output_shape (env : HalEnv) (uenv : UdfpsEnv) (tracker : Nat)
    (props : PropStore) :
    ∃ loc : SensorLocation,
      (getSensorProps props (mkFingerprint env uenv tracker)).2.1 =
        [{ commonProps :=
             { sensorId := 0
               sensorStrength := SensorStrength.STRONG
               maxEnrollmentsPerUser := 7
               componentInfo :=
                 [⟨"fingerprintSensor", "vendor/model/revision", "1.01", "00000001", ""⟩,
                  ⟨"matchingAlgorithm", "", "", "", "vendor/version/revision"⟩] }
           sensorType := (mkFingerprint env uenv tracker).mSensorType
           sensorLocations := [loc]
           supportsNavigationGestures := false
           supportsDetectInteraction := false
           halHandlesDisplayTouches := false
           halControlsIllumination := false
           touchDetectionParameters := none }] := by
  refine ⟨?_, ?_⟩
  · exact if property_get_int32 props
        "ro.vendor.feature.fingerprint_sensorui_position_center_x" (-1) ≥ 0 ∧
      property_get_int32 props
        "ro.vendor.feature.fingerprint_sensorui_position_center_y" (-1) ≥ 0 ∧
      property_get_int32 props
        "ro.vendor.feature.fingerprint_sensorui_position_center_r" (-1) ≥ 0 then
      { sensorLocationX := property_get_int32 props
          "ro.vendor.feature.fingerprint_sensorui_position_center_x" (-1)
        sensorLocationY := property_get_int32 props
          "ro.vendor.feature.fingerprint_sensorui_position_center_y" (-1)
        sensorRadius := property_get_int32 props
          "ro.vendor.feature.fingerprint_sensorui_position_center_r" (-1) }
    else {}
  · have hmax : (mkFingerprint env uenv tracker).mMaxEnrollmentsPerUser = 7 := by
      cases hf : uenv.factory <;>
        simp [mkFingerprint, hf, MAX_ENROLLMENTS_PER_USER] <;>
        split <;> rfl
    have hg : (mkFingerprint env uenv tracker).mSupportsGestures = false := by
      cases hf : uenv.factory <;>
        simp [mkFingerprint, hf] <;>
        split <;> rfl
    simp [getSensorProps, hmax, hg, SENSOR_ID, SENSOR_STRENGTH, HW_COMPONENT_ID,
      HW_VERSION, FW_VERSION, SERIAL_NUMBER, SW_COMPONENT_ID, SW_VERSION]

/-- C9: getSensorProps fills the sensor location from the three system
properties `ro.vendor.feature.fingerprint_sensorui_position_center_{x,y,r}`
only when all three read values are nonnegative; otherwise (including when a
property is absent, so the read defaults to -1) the returned `SensorProps`
carries the default-constructed sensor location. -/
theorem getSensorProps_sensor_location (props : PropStore) (s : FingerprintState) :
    (getSensorProps props s).2.1.map SensorProps.sensorLocations =
      [[ let x := property_get_int32 props
           "ro.vendor.feature.fingerprint_sensorui_position_center_x" (-1)
         let y := property_get_int32 props
           "ro.vendor.feature.fingerprint_sensorui_position_center_y" (-1)
         let r := property_get_int32 props
           "ro.vendor.feature.fingerprint_sensorui_position_center_r" (-1)
         if x ≥ 0 ∧ y ≥ 0 ∧ r ≥ 0 then
           { sensorLocationX := x, sensorLocationY := y, sensorRadius := r }
         else
           ({} : SensorLocation) ]] ∧
    (props "ro.vendor.feature.fingerprint_sensorui_position_center_x" = none →
      (getSensorProps props s).2.1.map SensorProps.sensorLocations =
        [[({} : SensorLocation)]]) := by
  constructor
  · simp [getSensorProps]
  · intro hx
    simp [getSensorProps, property_get_int32, hx]

/-- Witness for C9: with an empty property store (all three keys absent,
each read defaulting to -1), the sensor location is default-constructed. -/
theorem getSensorProps_sensor_location_witness :
    (getSensorProps (fun _ => none)
        (mkFingerprint halEnvGood ⟨none, fun _ => none⟩ 0)).2.1.map
      SensorProps.sensorLocations = [[({} : SensorLocation)]] :=
  (getSensorProps_sensor_location (fun _ => none)
      (mkFingerprint halEnvGood ⟨none, fun _ => none⟩ 0)).2 rfl

/-- C10: getSensorProps is read-only on the service state (the returned
state equals the input state), and its output is a deterministic function of
the three fields it reads (`mMaxEnrollmentsPerUser`, `mSensorType`,
`mSupportsGestures`) and the three system properties it reads. -/
theorem getSensorProps_readonly_deterministic
    (props1 props2 : PropStore) (s1 s2 : FingerprintState)
    (hmax : s1.mMaxEnrollmentsPerUser = s2.mMaxEnrollmentsPerUser)
    (htype : s1.mSensorType = s2.mSensorType)
    (hg : s1.mSupportsGestures = s2.mSupportsGestures)
    (hx : props1 "ro.vendor.feature.fingerprint_sensorui_position_center_x" =
          props2 "ro.vendor.feature.fingerprint_sensorui_position_center_x")
    (hy : props1 "ro.vendor.feature.fingerprint_sensorui_position_center_y" =
          props2 "ro.vendor.feature.fingerprint_sensorui_position_center_y")
    (hr : props1 "ro.vendor.feature.fingerprint_sensorui_position_center_r" =
          props2 "ro.vendor.feature.fingerprint_sensorui_position_center_r") :
    (getSensorProps props1 s1).1 = s1 ∧
    (getSensorProps props1 s1).2 = (getSensorProps props2 s2).2 := by
  constructor
  · rfl
  · simp [getSensorProps, property_get_int32, hmax, htype, hg, hx, hy, hr]

/-- Witness for C10: two stores differing on an unrelated key and two states
differing only in the session pointer produce the same output, and the state
comes back unchanged. -/
theorem getSensorProps_readonly_deterministic_witness :
    (getSensorProps (fun _ => none)
        (mkFingerprint halEnvGood ⟨none, fun _ => none⟩ 0)).1 =
      mkFingerprint halEnvGood ⟨none, fun _ => none⟩ 0 ∧
    (getSensorProps (fun _ => none)
        (mkFingerprint halEnvGood ⟨none, fun _ => none⟩ 0)).2 =
      (getSensorProps (fun k => if k = "unrelated.key" then some 5 else none)
        { mkFingerprint halEnvGood ⟨none, fun _ => none⟩ 0 with
            mSession := some ⟨none, none, 0, 0, 0, false⟩ }).2 :=
  getSensorProps_readonly_deterministic
    (fun _ => none) (fun k => if k = "unrelated.key" then some 5 else none)
    (mkFingerprint halEnvGood ⟨none, fun _ => none⟩ 0)
    { mkFingerprint halEnvGood ⟨none, fun _ => none⟩ 0 with
        mSession := some ⟨none, none, 0, 0, 0, false⟩ }
    rfl rfl rfl (by decide) (by decide) (by decide)

/-- The condition of the `CHECK` at Fingerprint.cpp line 198:
`mSession == nullptr || mSession->isClosed()`. -/
def sessionAvailable (s : FingerprintState) : Bool :=
  match s.mSession with
  | none => true
  | some sess => sess.isClosed

/-- Side effects of `createSession` other than the state update: the
`linkToDeath` call on the callback's binder (Fingerprint.cpp line 203). -/
inductive SessionEffect where
  | linkToDeath (cb : Nat)
  deriving DecidableEq, Repr

/-- `Fingerprint::createSession` (Fingerprint.cpp lines 195-206).  `none`
models the `CHECK` aborting the process; on a completing run the result is
the updated state, the session written through `*out`, the effect list and
the returned status.  `sensorId` is ignored by the source. -/
def createSession (s : FingerprintState) (_sensorId : Int) (userId : Int) (cb : Nat) :
    Option (FingerprintState × Session × List SessionEffect × ScopedAStatus) :=
  if sessionAvailable s then
    let sess : Session :=
      { device := s.mDevice
        udfpsHandler := s.mUdfpsHandler
        userId := userId
        cb := cb
        lockoutTracker := s.mLockoutTracker
        closed := false }
    some ({ s with mSession := some sess }, sess, [SessionEffect.linkToDeath cb], ScopedAStatus.ok)
  else
    none

/-- `Fingerprint::notify` (Fingerprint.cpp lines 151-158), the static C
callback.  `sInstance` is the global instance pointer; the result is the
forwarded call `mSession->notify(msg)` (`none` = the message is dropped).
Messages are modelled as opaque identities. -/
def notify (sInstance : Option FingerprintState) (msg : Nat) : Option (Session × Nat) :=
  match sInstance with
  | none => none
  | some thisPtr =>
    match thisPtr.mSession with
    | none => none
    | some sess =>
      if sess.isClosed then none
      else some (sess, msg)

/-- C5: createSession, on every completing call with user id `u` and
callback `cb`, constructs a new `Session` bound to the held device, the
UDFPS handler, `u`, `cb` and the lockout tracker, stores it as the
instance's session pointer, writes that same session to the out parameter,
links it to the callback's binder death, and returns an OK status. -/
theorem createSession_per_user_session (s : FingerprintState) (sid u : Int) (cb : Nat)
    (h : sessionAvailable s = true) :
    ∃ rest : FingerprintState × Session × List SessionEffect × ScopedAStatus,
      createSession s sid u cb = some rest ∧
      rest.2.1 = { device := s.mDevice
                   udfpsHandler := s.mUdfpsHandler
                   userId := u
                   cb := cb
                   lockoutTracker := s.mLockoutTracker
                   closed := false } ∧
      rest.1.mSession = some rest.2.1 ∧
      rest.2.2.1 = [SessionEffect.linkToDeath cb] ∧
      rest.2.2.2 = ScopedAStatus.ok := by
  simp only [createSession, h, if_true]
  exact ⟨_, rfl, rfl, rfl, rfl, rfl⟩

/-- Witness for C5: a concrete completing call on a freshly constructed
instance (session pointer null). -/
theorem createSession_per_user_session_witness :
    ∃ rest : FingerprintState × Session × List SessionEffect × ScopedAStatus,
      createSession (mkFingerprint halEnvGood ⟨none, fun _ => none⟩ 0) 0 42 7 = some rest ∧
      rest.2.1 = { device := (mkFingerprint halEnvGood ⟨none, fun _ => none⟩ 0).mDevice
                   udfpsHandler := (mkFingerprint halEnvGood ⟨none, fun _ => none⟩ 0).mUdfpsHandler
                   userId := 42
                   cb := 7
                   lockoutTracker := (mkFingerprint halEnvGood ⟨none, fun _ => none⟩ 0).mLockoutTracker
                   closed := false } ∧
      rest.1.mSession = some rest.2.1 ∧
      rest.2.2.1 = [SessionEffect.linkToDeath 7] ∧
      rest.2.2.2 = ScopedAStatus.ok :=
  createSession_per_user_session (mkFingerprint halEnvGood ⟨none, fun _ => none⟩ 0)
    0 42 7 (by decide)

/-- C6: the service holds at most one open session: createSession completes
exactly when the current session pointer is null or refers to a closed
session (the `CHECK` aborts otherwise), and after a completing createSession
the pointer refers to the newly created session; the other operations do not
reassign the pointer: getSensorProps returns the whole state (hence the
session pointer) unchanged, and the constructor initializes the pointer to
null. -/
theorem single_session_invariant (s : FingerprintState) (sid u : Int) (cb : Nat)
    (props : PropStore) (env : HalEnv) (uenv : UdfpsEnv) (tracker : Nat) :
    ((createSession s sid u cb).isSome ↔ sessionAvailable s = true) ∧
    (∀ rest : FingerprintState × Session × List SessionEffect × ScopedAStatus,
      createSession s sid u cb = some rest → rest.1.mSession = some rest.2.1) ∧
    (getSensorProps props s).1 = s ∧
    (mkFingerprint env uenv tracker).mSession = none := by
  refine ⟨?_, ?_, rfl, ?_⟩
  · unfold createSession
    split <;> simp_all
  · intro rest hrest
    unfold createSession at hrest
    split at hrest
    · rw [Option.some_inj] at hrest
      subst hrest
      rfl
    · exact absurd hrest (by simp)
  · cases hf : uenv.factory <;>
      simp [mkFingerprint, hf] <;>
      split <;> rfl

/-- A freshly constructed instance on the fully successful environment,
used to exercise createSession. -/
def freshFp : FingerprintState := mkFingerprint halEnvGood ⟨none, fun _ => none⟩ 0

/-- The session created by `createSession freshFp 0 1 2`. -/
def freshSession : Session :=
  { device := some ⟨0, kVersion⟩
    udfpsHandler := none
    userId := 1
    cb := 2
    lockoutTracker := 0
    closed := false }

/-- The full result of `createSession freshFp 0 1 2`. -/
def freshRest : FingerprintState × Session × List SessionEffect × ScopedAStatus :=
  ({ freshFp with mSession := some freshSession }, freshSession,
   [SessionEffect.linkToDeath 2], ScopedAStatus.ok)

/-- Witness for C6: on a fresh instance a concrete completing createSession
installs the newly created session as the session pointer. -/
theorem single_session_invariant_witness :
    freshRest.1.mSession = some freshRest.2.1 :=
  (single_session_invariant freshFp 0 1 2 (fun _ => none) halEnvGood
    ⟨none, fun _ => none⟩ 0).2.1 freshRest (by decide)

/-- C7: both remote operations return an OK status on every completing run:
getSensorProps always returns OK, and every completing createSession returns
OK, regardless of whether a device was opened or the sensor-location
properties are missing. -/
theorem remote_ops_return_ok (props : PropStore) (s : FingerprintState)
    (sid u : Int) (cb : Nat) :
    (getSensorProps props s).2.2 = ScopedAStatus.ok ∧
    (∀ rest : FingerprintState × Session × List SessionEffect × ScopedAStatus,
      createSession s sid u cb = some rest → rest.2.2.2 = ScopedAStatus.ok) := by
  refine ⟨rfl, ?_⟩
  intro rest hrest
  unfold createSession at hrest
  split at hrest
  · rw [Option.some_inj] at hrest
    subst hrest
    rfl
  · exact absurd hrest (by simp)

/-- A constructed instance on an environment where the module loader fails,
so no device is opened. -/
def noDevFp : FingerprintState :=
  mkFingerprint { halEnvGood with hwGetModuleErr := fun _ _ => -2 }
    ⟨none, fun _ => none⟩ 0

/-- The full result of `createSession noDevFp 0 1 2`. -/
def noDevRest : FingerprintState × Session × List SessionEffect × ScopedAStatus :=
  ({ noDevFp with mSession := some ⟨none, none, 1, 2, 0, false⟩ },
   ⟨none, none, 1, 2, 0, false⟩, [SessionEffect.linkToDeath 2], ScopedAStatus.ok)

/-- Witness for C7: a concrete completing run of both operations, on an
instance with no opened device (all module loads fail) and with the three
sensor-location properties absent; both return OK. -/
theorem remote_ops_return_ok_witness :
    (getSensorProps (fun _ => none) noDevFp).2.2 = ScopedAStatus.ok ∧
    noDevRest.2.2.2 = ScopedAStatus.ok :=
  ⟨(remote_ops_return_ok (fun _ => none) noDevFp 0 1 2).1,
   (remote_ops_return_ok (fun _ => none) noDevFp 0 1 2).2 noDevRest (by decide)⟩

/-- C8: the static callback `Fingerprint::notify` drops a message (no
effect) exactly when the recorded instance is null, or its session pointer
is null, or the session is closed; when an instance with a non-null,
non-closed session exists, the message is forwarded to that session's
notify. -/
theorem notify_drops_or_forwards (inst : Option FingerprintState) (msg : Nat) :
    (notify inst msg = none ↔
      inst = none ∨
      ∃ t : FingerprintState, inst = some t ∧
        (t.mSession = none ∨
         ∃ sess : Session, t.mSession = some sess ∧ sess.isClosed = true)) ∧
    (∀ (t : FingerprintState) (sess : Session),
      inst = some t → t.mSession = some sess → sess.isClosed = false →
      notify inst msg = some (sess, msg)) := by
  constructor
  · unfold notify
    repeat' split
    all_goals simp_all
  · intro t sess ht hsess hopen
    simp [notify, ht, hsess, hopen]

/-- Witness for C8: a concrete open session receives the message; this
exercises the forwarding branch of the theorem. -/
theorem notify_drops_or_forwards_witness :
    notify (some { mkFingerprint halEnvGood ⟨none, fun _ => none⟩ 0 with
        mSession := some ⟨none, none, 5, 6, 0, false⟩ }) 99 =
      some (⟨none, none, 5, 6, 0, false⟩, 99) :=
  (notify_drops_or_forwards
      (some { mkFingerprint halEnvGood ⟨none, fun _ => none⟩ 0 with
          mSession := some ⟨none, none, 5, 6, 0, false⟩ }) 99).2
    { mkFingerprint halEnvGood ⟨none, fun _ => none⟩ 0 with
        mSession := some ⟨none, none, 5, 6, 0, false⟩ }
    ⟨none, none, 5, 6, 0, false⟩ rfl rfl rfl

end XiaomiFp
